import Mathlib

/-!
Formal model of the `amplifier-bundle-session-guardian` repository.

Two components are embedded:
* the session-guardian token tracker
  (`src/modules/session-guardian/amplifier_session_guardian/__init__.py`),
* the session-state persistence tool
  (`src/modules/tool-session-state/__init__.py`).

Python's dynamically-typed values appearing in usage payloads are modelled by
`PyVal`; Python numbers (ints, bools-as-ints and floats) are mapped to `Rat`,
which models the arithmetic this code performs (comparison, division,
addition) exactly up to float rounding.  Operations that can raise a Python
exception are modelled with `Except Unit`.
-/

namespace Guardian

/-- A Python value as it can occur in a usage payload or a config entry:
an int, a float (modelled as a rational), a bool, a string, or `None`. -/
inductive PyVal where
  | vint (n : Int)
  | vrat (q : Rat)
  | vbool (b : Bool)
  | vstr (s : String)
  | vnone
deriving Repr, DecidableEq

/-- Python truthiness for `PyVal`: `0`, `0.0`, `False`, `""` and `None`
are falsy. -/
def PyVal.falsy : PyVal → Bool
  | .vint n => n == 0
  | .vrat q => q == 0
  | .vbool b => !b
  | .vstr s => s == ""
  | .vnone => true

/-- Models Python's `v or 0`: a falsy value is replaced by the int `0`. -/
def orZero (v : PyVal) : PyVal := if v.falsy then .vint 0 else v

/-- Numeric view of a `PyVal`: Python ints, floats and bools take part in
arithmetic (`True == 1`, `False == 0`); strings and `None` do not. -/
def PyVal.toRat? : PyVal → Option Rat
  | .vint n => some (n : Rat)
  | .vrat q => some q
  | .vbool b => some (if b then 1 else 0)
  | .vstr _ => none
  | .vnone => none

/-- Models the Python expression `v > 0`: a numeric comparison for numbers
and bools, a raised `TypeError` (modelled as `Except.error`) otherwise. -/
def gtZero (v : PyVal) : Except Unit Bool :=
  match v.toRat? with
  | some q => Except.ok (decide (0 < q))
  | none => Except.error ()

/-- Models the Python expression `q < v` with `q` a float: ok for numeric
`v`, a raised `TypeError` otherwise. -/
def ltVal (q : Rat) (v : PyVal) : Except Unit Bool :=
  match v.toRat? with
  | some r => Except.ok (decide (q < r))
  | none => Except.error ()

/-- Numeric value of a `PyVal`, defaulting to 0 (used only after a numeric
check has succeeded). -/
def PyVal.num (v : PyVal) : Rat := (v.toRat?).getD 0

/-- Models Python's `int(x)` on a float/rational: truncation toward zero. -/
def pytrunc (q : Rat) : Int := if 0 ≤ q then q.floor else q.ceil

/-- A usage payload as `_extract_tokens` sees it: `None`, a dict, or an
attribute-carrying (Pydantic-style) object.  Both mappings are modelled as
association lists. -/
inductive Usage where
  | noneU
  | dict (entries : List (String × PyVal))
  | obj (attrs : List (String × PyVal))
deriving Repr, DecidableEq

/-- Models `d.get(key, 0)` / `getattr(o, key, 0)`: the first binding of
`key`, defaulting to the int `0`. -/
def lookupd (entries : List (String × PyVal)) (key : String) : PyVal :=
  match entries.find? (fun p => p.1 == key) with
  | some p => p.2
  | none => .vint 0

/-- Models `_extract_tokens`: extract `(input_tokens, output_tokens)` from a dict
or model object, each passed through `or 0`; `None` yields `(0, 0)`. -/
def extract_tokens : Usage → PyVal × PyVal
  | .noneU => (.vint 0, .vint 0)
  | .dict es => (orZero (lookupd es ("input_tokens")), orZero (lookupd es ("output_tokens")))
  | .obj es => (orZero (lookupd es ("input_tokens")), orZero (lookupd es ("output_tokens")))

/-- The `TokenTracker` state.  `soft_threshold`/`hard_threshold` come from an
untyped config dict and are kept as `PyVal`; the token counters are numeric
(Python ints, possibly floats after duck-typed updates). -/
structure TokenTracker where
  context_window : Int
  soft_threshold : PyVal
  hard_threshold : PyVal
  latest_input_tokens : Rat
  cumulative_output_tokens : Rat
  turn_count : Int
deriving Repr, DecidableEq

/-- Models `TokenTracker.__init__` with explicit config values; the counters start
at zero. -/
def TokenTracker.init (window : Int) (soft hard : PyVal) : TokenTracker :=
  { context_window := window
    soft_threshold := soft
    hard_threshold := hard
    latest_input_tokens := 0
    cumulative_output_tokens := 0
    turn_count := 0 }

/-- Models `TokenTracker.usage_pct`: `latest_input_tokens / context_window`, or 0
when `context_window <= 0`. -/
def TokenTracker.usage_pct (t : TokenTracker) : Rat :=
  if t.context_window ≤ 0 then 0
  else t.latest_input_tokens / (t.context_window : Rat)

/-- The result object a hook handler returns to the host. -/
structure HookResult where
  action : String
  context_injection : Option String
  context_injection_role : Option String
  ephemeral : Bool
  user_message : Option String
  user_message_level : Option String
deriving Repr, DecidableEq

/-- Builds `HookResult(action="continue")`. -/
def continueResult : HookResult :=
  { action := "continue"
    context_injection := none
    context_injection_role := none
    ephemeral := false
    user_message := none
    user_message_level := none }

/-- Models `_handle_response`: extract tokens; overwrite `latest_input_tokens` when
the input count compares `> 0`; add the output count to
`cumulative_output_tokens`; increment `turn_count`.  A raised exception
anywhere in the body is caught (the state mutated so far is kept) and the
handler still returns `continue`. -/
def handle_response (t : TokenTracker) (usage : Usage) : TokenTracker × HookResult :=
  let iv := (extract_tokens usage).1
  let ov := (extract_tokens usage).2
  match gtZero iv with
  | Except.error _ => (t, continueResult)
  | Except.ok b =>
    let t1 := if b then { t with latest_input_tokens := iv.num } else t
    match ov.toRat? with
    | none => (t1, continueResult)
    | some q =>
      ({ t1 with
          cumulative_output_tokens := t1.cumulative_output_tokens + q
          turn_count := t1.turn_count + 1 },
       continueResult)

/-- The informational-band injection text. -/
def infoMsg (p : Int) (turn : Int) : String :=
  "[Session Guardian: " ++ toString p ++ "% context used, turn " ++ toString turn ++ "]"

/-- The soft-warning-band injection text. -/
def softMsg (p : Int) : String :=
  "[Session Guardian: " ++ toString p
    ++ "% context — save progress with session_state tool now. Continue working but be concise.]"

/-- The soft-warning-band user message. -/
def softUserMsg (p : Int) : String :=
  "Session Guardian: " ++ toString p ++ "% context used — saving progress recommended"

/-- The hard-warning-band injection text. -/
def hardMsg (p : Int) : String :=
  "[Session Guardian: " ++ toString p
    ++ "% context — HANDOFF REQUIRED. Save state immediately and tell the user to start a new session.]"

/-- The hard-warning-band user message. -/
def hardUserMsg (p : Int) : String :=
  "Session Guardian: " ++ toString p ++ "% context used — handoff required!"

/-- Models `_handle_request`: compute `usage_pct`, truncate to a percent, and pick
the band by two threshold comparisons evaluated in order; a raised exception
(e.g. a non-numeric threshold) is caught and yields `continue`. -/
def handle_request (t : TokenTracker) : HookResult :=
  let pct := t.usage_pct
  let p := pytrunc (pct * 100)
  let turn := t.turn_count
  match ltVal pct t.soft_threshold with
  | Except.error _ => continueResult
  | Except.ok true =>
    { action := "inject_context"
      context_injection := some (infoMsg p turn)
      context_injection_role := some ("system")
      ephemeral := true
      user_message := none
      user_message_level := none }
  | Except.ok false =>
    match ltVal pct t.hard_threshold with
    | Except.error _ => continueResult
    | Except.ok true =>
      { action := "inject_context"
        context_injection := some (softMsg p)
        context_injection_role := some ("system")
        ephemeral := true
        user_message := some (softUserMsg p)
        user_message_level := some ("warning") }
    | Except.ok false =>
      { action := "inject_context"
        context_injection := some (hardMsg p)
        context_injection_role := some ("system")
        ephemeral := true
        user_message := some (hardUserMsg p)
        user_message_level := some ("error") }

/-- Run a sequence of `provider:response` events through the tracker. -/
def runResponses (t : TokenTracker) (us : List Usage) : TokenTracker :=
  us.foldl (fun s u => (handle_response s u).1) t

/-- A dict usage payload reporting just `input_tokens`. -/
def inputUsage (n : Int) : Usage := .dict [("input_tokens", .vint n)]

/-- A dict usage payload reporting just `output_tokens`. -/
def outputUsage (n : Int) : Usage := .dict [("output_tokens", .vint n)]

/-- The positive input-token observation an event contributes, if any: the
extracted input value when it exists, is numeric and compares `> 0`. -/
def posInput? (u : Usage) : Option Rat :=
  match gtZero (extract_tokens u).1 with
  | Except.ok true => some (extract_tokens u).1.num
  | _ => none

/-- The numeric value of an event's extracted output-token field (0 when it
is non-numeric). -/
def outVal (u : Usage) : Rat := ((extract_tokens u).2.toRat?).getD 0

/-- Whether both extracted fields of an event are Python ints. -/
def intExtract (u : Usage) : Bool :=
  match extract_tokens u with
  | (.vint _, .vint _) => true
  | _ => false

/-- The tracker state after a fresh tracker processes a sequence of
response events. -/
def trackerAfter (window : Int) (soft hard : PyVal) (us : List Usage) : TokenTracker :=
  runResponses (TokenTracker.init window soft hard) us

end Guardian

namespace Store

/-- The snapshot directory name (`STATE_DIR`). -/
def STATE_DIR : String := ".session-state"

/-- The retention window `PRUNE_DAYS`, in seconds (`timedelta(days=7)`). -/
def pruneSeconds : Int := 7 * 86400

/-- The opaque `context` object of a snapshot, modelled as key/value pairs;
the store only ever checks its truthiness (non-emptiness). -/
def CtxDoc := List (String × String)
deriving Repr, DecidableEq

/-- The snapshot document `_save_state` builds and serializes, in the
field order the Python dict is populated. -/
structure StateDoc where
  version : Nat
  timestamp : String
  summary : String
  accomplished : List String
  remaining : List String
  decisions : Option (List String)
  context : Option CtxDoc
  session_id : Option String
deriving Repr, DecidableEq

/-- The `save_state` operation's input fields (`operation` aside). -/
structure SaveInput where
  summary : Option String
  accomplished : Option (List String)
  remaining : Option (List String)
  decisions : Option (List String)
  context : Option CtxDoc
deriving Repr, DecidableEq

/-- Python truthiness of `input.get("summary")`. -/
def strFalsy : Option String → Bool
  | none => true
  | some s => s == ""

/-- Python truthiness of an optional list field. -/
def listFalsy : Option (List String) → Bool
  | none => true
  | some l => l.isEmpty

/-- Python truthiness of the optional `context` object. -/
def ctxFalsy : Option CtxDoc → Bool
  | none => true
  | some c => List.isEmpty c

/-- Models `[f for f in ("summary", "accomplished", "remaining") if not input.get(f)]`. -/
def missingFields (inp : SaveInput) : List String :=
  (if strFalsy inp.summary then ["summary"] else [])
    ++ (if listFalsy inp.accomplished then ["accomplished"] else [])
    ++ (if listFalsy inp.remaining then ["remaining"] else [])

/-- What a snapshot file on disk holds: a well-formed document, or bytes
that fail to parse/read (carrying the exception text). -/
inductive FileContent where
  | doc (d : StateDoc)
  | malformed (excMsg : String)
deriving Repr, DecidableEq

/-- One file of the state directory: name, content, byte size, filesystem
modification time (epoch seconds), and whether `stat`/`unlink` on it raises
(modelling per-file pruning failures). -/
structure FileEntry where
  name : String
  content : FileContent
  size : Nat
  mtime : Int
  opFails : Bool
deriving Repr, DecidableEq

/-- The state directory: whether it exists, and its files. -/
structure FS where
  dirExists : Bool
  files : List FileEntry
deriving Repr, DecidableEq

/-- The result object a tool invocation returns to the host. -/
structure ToolResult where
  output : Option String
  error : Option String
deriving Repr, DecidableEq

/-- Builds `ToolResult(output=s)`. -/
def okOut (s : String) : ToolResult := { output := some s, error := none }

/-- Builds `ToolResult(error=s)`. -/
def errOut (s : String) : ToolResult := { output := none, error := some s }

/-- Tests whether `".json".data` is a suffix of the name. -/
def hasJsonSuffix (s : String) : Bool := ".json".data.isSuffixOf s.data

/-- Models `state_dir.glob("*.json")`: the files whose name ends in `.json`. -/
def globJson (fs : FS) : List FileEntry :=
  fs.files.filter (fun f => hasJsonSuffix f.name)

/-- Insertion step for `sorted(files, reverse=True)` (descending names). -/
def insertDesc (f : FileEntry) : List FileEntry → List FileEntry
  | [] => [f]
  | g :: gs => if g.name < f.name then f :: g :: gs else g :: insertDesc f gs

/-- Models `sorted(files, reverse=True)`: sort by name, descending. -/
def sortDesc (files : List FileEntry) : List FileEntry :=
  files.foldr insertDesc []

/-- Two-digit zero-padded decimal. -/
def pad2 (n : Nat) : String :=
  if n < 10 then ("0") ++ toString n else toString n

/-- Four-digit zero-padded decimal (for `%Y`). -/
def pad4 (n : Nat) : String :=
  if n < 10 then ("000") ++ toString n
  else if n < 100 then ("00") ++ toString n
  else if n < 1000 then ("0") ++ toString n
  else toString n

/-- Civil date from days since the Unix epoch (proleptic Gregorian). -/
def civilFromDays (z0 : Int) : Int × Nat × Nat :=
  let z := z0 + 719468
  let era := z.fdiv 146097
  let doe := (z - era * 146097).toNat
  let yoe := (doe - doe / 1460 + doe / 36524 - doe / 146096) / 365
  let doy := doe - (365 * yoe + yoe / 4 - yoe / 100)
  let mp := (5 * doy + 2) / 153
  let d := doy - (153 * mp + 2) / 5 + 1
  let m := if mp < 10 then mp + 3 else mp - 9
  let y := (yoe : Int) + era * 400 + (if m ≤ 2 then 1 else 0)
  (y, m, d)

/-- The UTC calendar fields of an epoch-seconds instant. -/
def utcFields (t : Int) : Int × Nat × Nat × Nat × Nat × Nat :=
  let days := t.fdiv 86400
  let sod := (t - days * 86400).toNat
  let ymd := civilFromDays days
  (ymd.1, ymd.2.1, ymd.2.2, sod / 3600, sod % 3600 / 60, sod % 60)

/-- Models `now.strftime("%Y-%m-%dT%H-%M-%S")`. -/
def stampStr (t : Int) : String :=
  let f := utcFields t
  pad4 f.1.toNat ++ "-" ++ pad2 f.2.1 ++ "-" ++ pad2 f.2.2.1 ++ "T"
    ++ pad2 f.2.2.2.1 ++ "-" ++ pad2 f.2.2.2.2.1 ++ "-" ++ pad2 f.2.2.2.2.2

/-- The snapshot filename derived from the save instant. -/
def fnameOf (t : Int) : String := stampStr t ++ ".json"

/-- Models `now.isoformat()` at second resolution for an aware UTC datetime. -/
def isoOf (t : Int) : String :=
  let f := utcFields t
  pad4 f.1.toNat ++ "-" ++ pad2 f.2.1 ++ "-" ++ pad2 f.2.2.1 ++ "T"
    ++ pad2 f.2.2.2.1 ++ ":" ++ pad2 f.2.2.2.2.1 ++ ":" ++ pad2 f.2.2.2.2.2 ++ "+00:00"

/-- An opening brace as string data (JSON punctuation). -/
def lbr : String := String.singleton (Char.ofNat 123)

/-- A closing brace as string data (JSON punctuation). -/
def rbr : String := String.singleton (Char.ofNat 125)

/-- A JSON string literal (escaping elided in the model). -/
def jstr (s : String) : String := "\"" ++ s ++ "\""

/-- A JSON array of strings, as `json.dumps` renders it at indent level 1. -/
def jlist (xs : List String) : String :=
  if xs.isEmpty then ("[]")
  else ("[\n    ") ++ String.intercalate (",\n    ") (xs.map jstr) ++ "\n  ]"

/-- One `"key": value` member line. -/
def jmember (key val : String) : String := "  " ++ jstr key ++ ": " ++ val

/-- The opaque context object rendered as a JSON object. -/
def jctx (c : CtxDoc) : String :=
  let pairs : List (String × String) := c
  if pairs.isEmpty then lbr ++ rbr
  else
    lbr ++ "\n    "
      ++ String.intercalate (",\n    ") (pairs.map (fun p => jstr p.1 ++ ": " ++ jstr p.2))
      ++ "\n  " ++ rbr

/-- Models `json.dumps(state, indent=2)`: the serialized snapshot document, with
members in insertion order. -/
def renderDoc (d : StateDoc) : String :=
  let base : List String :=
    [jmember ("version") (toString d.version),
     jmember ("timestamp") (jstr d.timestamp),
     jmember ("summary") (jstr d.summary),
     jmember ("accomplished") (jlist d.accomplished),
     jmember ("remaining") (jlist d.remaining)]
  let withDec := match d.decisions with
    | some ds => base ++ [jmember ("decisions") (jlist ds)]
    | none => base
  let withCtx := match d.context with
    | some c => withDec ++ [jmember ("context") (jctx c)]
    | none => withDec
  let all := match d.session_id with
    | some sid => withCtx ++ [jmember ("session_id") (jstr sid)]
    | none => withCtx
  lbr ++ "\n" ++ String.intercalate (",\n") all ++ "\n" ++ rbr

/-- The snapshot document `_save_state` builds from a validated input, the
save instant and the host-supplied session id (`if session_id:` keeps only a
non-empty one). -/
def docOf (inp : SaveInput) (now : Int) (sid : Option String) : StateDoc :=
  { version := 1
    timestamp := isoOf now
    summary := inp.summary.getD ("")
    accomplished := inp.accomplished.getD []
    remaining := inp.remaining.getD []
    decisions := if listFalsy inp.decisions then none else inp.decisions
    context := if ctxFalsy inp.context then none else inp.context
    session_id :=
      match sid with
      | some s => if s == "" then none else some s
      | none => none }

/-- The file `_save_state` writes: serialized document plus trailing
newline, fresh mtime. -/
def mkEntry (inp : SaveInput) (now : Int) (sid : Option String) : FileEntry :=
  { name := fnameOf now
    content := .doc (docOf inp now sid)
    size := (renderDoc (docOf inp now sid) ++ "\n").utf8ByteSize
    mtime := now
    opFails := false }

/-- Deletion predicate of `_prune_old_states`: a `*.json` file whose mtime
is before `now - PRUNE_DAYS` and whose `stat`/`unlink` does not raise. -/
def pruneFile (cutoff : Int) (f : FileEntry) : Bool :=
  hasJsonSuffix f.name && !f.opFails && decide (f.mtime < cutoff)

/-- Models `_prune_old_states`: delete the old `*.json` files, swallowing per-file
failures; returns the surviving files and the count deleted. -/
def prune_old_states (files : List FileEntry) (now : Int) : List FileEntry × Nat :=
  let cutoff := now - pruneSeconds
  (files.filter (fun f => !(pruneFile cutoff f)),
   (files.filter (pruneFile cutoff)).length)

/-- The success message of `_save_state`. -/
def saveMsg (now : Int) (pruned : Nat) : String :=
  "State saved to " ++ STATE_DIR ++ "/" ++ fnameOf now
    ++ (if pruned ≠ 0 then
          " (pruned " ++ toString pruned ++ " old file"
            ++ (if pruned ≠ 1 then ("s") else ("")) ++ ")"
        else (""))

/-- Models `_save_state`: validate, create the directory, write the snapshot file
(same-second collision: last write wins), prune, and report. -/
def save_state (inp : SaveInput) (now : Int) (sid : Option String) (fs : FS) :
    ToolResult × FS :=
  let missing := missingFields inp
  if missing ≠ [] then
    (errOut ("save_state requires: " ++ String.intercalate (", ") missing), fs)
  else
    let entry := mkEntry inp now sid
    let written := entry :: fs.files.filter (fun f => f.name ≠ entry.name)
    let pr := prune_old_states written now
    (okOut (saveMsg now pr.2), { dirExists := true, files := pr.1 })

/-- Models `_load_state`: fresh-session outputs for a missing directory or no
snapshot files; otherwise parse the lexicographically last file. -/
def load_state (fs : FS) : ToolResult :=
  if !fs.dirExists then
    okOut ("No session state directory found. This appears to be a fresh session.")
  else
    match sortDesc (globJson fs) with
    | [] => okOut ("No state files found. This appears to be a fresh session.")
    | latest :: _ =>
      match latest.content with
      | .doc d => okOut (renderDoc d)
      | .malformed exc =>
        errOut ("Failed to read " ++ STATE_DIR ++ "/" ++ latest.name ++ ": " ++ exc)

/-- Models `_list_states`: name and byte size of every snapshot file, newest
first. -/
def list_states (fs : FS) : ToolResult :=
  if !fs.dirExists then okOut ("No session state directory found.")
  else
    match sortDesc (globJson fs) with
    | [] => okOut ("No state files found.")
    | files =>
      okOut ("Found " ++ toString files.length ++ " state file(s):\n"
        ++ String.intercalate ("\n")
            (files.map (fun f => f.name ++ " (" ++ toString f.size ++ " bytes)")))

end Store

open Store in
/-- A valid sample input. -/
def sampleInput : SaveInput :=
  { summary := some ("wrapped up parser")
    accomplished := some ["lexer", "parser"]
    remaining := some ["codegen"]
    decisions := none
    context := none }

namespace Guardian

theorem orZero_vint (n : Int) : orZero (.vint n) = .vint n := by
  simp only [orZero, PyVal.falsy]
  split
  · next h => simp_all
  · rfl

theorem extract_inputUsage (n : Int) :
    extract_tokens (inputUsage n) = (.vint n, .vint 0) := by
  simp [extract_tokens, inputUsage, lookupd, List.find?, orZero_vint]

theorem extract_outputUsage (n : Int) :
    extract_tokens (outputUsage n) = (.vint 0, .vint n) := by
  simp [extract_tokens, outputUsage, lookupd, List.find?, orZero_vint]

theorem gtZero_vint (n : Int) : gtZero (.vint n) = Except.ok (decide (0 < n)) := by
  simp [gtZero, PyVal.toRat?]

/-- Step shape of `_handle_response` on an event whose extracted pair is a
pair of ints with positive input. -/
theorem handle_response_int_pos (t : TokenTracker) (u : Usage) (a b : Int)
    (hE : extract_tokens u = (.vint a, .vint b)) (ha : 0 < a) :
    handle_response t u =
      ({ t with
          latest_input_tokens := (a : Rat)
          cumulative_output_tokens := t.cumulative_output_tokens + (b : Rat)
          turn_count := t.turn_count + 1 }, continueResult) := by
  simp [handle_response, hE, gtZero_vint, ha, PyVal.num, PyVal.toRat?]

/-- Step shape of `_handle_response` on an event whose extracted pair is a
pair of ints with non-positive input. -/
theorem handle_response_int_nonpos (t : TokenTracker) (u : Usage) (a b : Int)
    (hE : extract_tokens u = (.vint a, .vint b)) (ha : ¬ 0 < a) :
    handle_response t u =
      ({ t with
          cumulative_output_tokens := t.cumulative_output_tokens + (b : Rat)
          turn_count := t.turn_count + 1 }, continueResult) := by
  simp [handle_response, hE, gtZero_vint, ha, PyVal.num, PyVal.toRat?]

theorem posInput?_pos (u : Usage) (v : Rat) (h : posInput? u = some v) : 0 < v := by
  unfold posInput? at h
  rcases hG : gtZero (extract_tokens u).1 with e | b
  · rw [hG] at h; cases h
  · rw [hG] at h
    cases b with
    | false => cases h
    | true =>
      unfold gtZero at hG
      rcases hT : (extract_tokens u).1.toRat? with _ | q
      · rw [hT] at hG; cases hG
      · rw [hT] at hG
        have hq : 0 < q := of_decide_eq_true (Except.ok.inj hG)
        have hv : v = q := by
          rw [← Option.some.inj h, PyVal.num, hT]; rfl
        rw [hv]; exact hq

/-- The new `latest_input_tokens` after one response event: the event's
positive input observation if it has one, the old value otherwise. -/
theorem handle_response_latest (t : TokenTracker) (u : Usage) :
    (handle_response t u).1.latest_input_tokens
      = (posInput? u).getD t.latest_input_tokens := by
  unfold handle_response posInput?
  rcases hG : gtZero (extract_tokens u).1 with e | b
  · simp [hG]
  · cases b with
    | false =>
      rcases hT : (extract_tokens u).2.toRat? with _ | q <;> simp [hG, hT]
    | true =>
      rcases hT : (extract_tokens u).2.toRat? with _ | q <;> simp [hG, hT]

/-- One response event never raises: the handler's result is always the
`continue` result, whatever branch was taken. -/
theorem handle_response_continue (t : TokenTracker) (u : Usage) :
    (handle_response t u).2 = continueResult := by
  unfold handle_response
  rcases hG : gtZero (extract_tokens u).1 with e | b
  · simp [hG]
  · rcases hT : (extract_tokens u).2.toRat? with _ | q <;> cases b <;> simp [hG, hT]

/-- One response event can only add the extracted numeric output value to
`cumulative_output_tokens` (or leave it unchanged on a caught error). -/
theorem handle_response_cumulative (t : TokenTracker) (u : Usage) :
    (handle_response t u).1.cumulative_output_tokens = t.cumulative_output_tokens
    ∨ ((handle_response t u).1.cumulative_output_tokens
        = t.cumulative_output_tokens + outVal u
      ∧ (extract_tokens u).2.toRat? = some (outVal u)) := by
  unfold handle_response
  rcases hG : gtZero (extract_tokens u).1 with e | b
  · left; simp [hG]
  · rcases hT : (extract_tokens u).2.toRat? with _ | q
    · left; cases b <;> simp [hG, hT]
    · right
      have hq : outVal u = q := by rw [outVal, hT]; rfl
      constructor
      · cases b <;> simp [hG, hT, hq]
      · rw [hq]

end Guardian

section GuardianChecks

open Guardian

example :
    (runResponses (TokenTracker.init 200000 (.vrat (3/5)) (.vrat (4/5)))
      [inputUsage 1000, inputUsage 0, inputUsage 3000]).latest_input_tokens = 3000 := by
  simp [runResponses,
    handle_response_int_pos _ (inputUsage 1000) 1000 0 (extract_inputUsage 1000) (by norm_num),
    handle_response_int_nonpos _ (inputUsage 0) 0 0 (extract_inputUsage 0) (by norm_num),
    handle_response_int_pos _ (inputUsage 3000) 3000 0 (extract_inputUsage 3000) (by norm_num)]

example :
    (runResponses (TokenTracker.init 200000 (.vrat (3/5)) (.vrat (4/5)))
      [outputUsage 50, outputUsage 75, outputUsage 0]).cumulative_output_tokens = 125 := by
  simp [runResponses,
    handle_response_int_nonpos _ (outputUsage 50) 0 50 (extract_outputUsage 50) (by norm_num),
    handle_response_int_nonpos _ (outputUsage 75) 0 75 (extract_outputUsage 75) (by norm_num),
    handle_response_int_nonpos _ (outputUsage 0) 0 0 (extract_outputUsage 0) (by norm_num),
    TokenTracker.init]
  norm_num

example :
    (handle_request { (TokenTracker.init 100 (.vrat (1/2)) (.vrat (4/5))) with
        latest_input_tokens := 45 }).user_message = none := by
  simp [handle_request, ltVal, PyVal.toRat?, TokenTracker.init, TokenTracker.usage_pct]
  norm_num

example :
    (handle_request { (TokenTracker.init 100 (.vrat (1/2)) (.vrat (4/5))) with
        latest_input_tokens := 60 }).user_message_level = some ("warning") := by
  simp [handle_request, ltVal, PyVal.toRat?, TokenTracker.init, TokenTracker.usage_pct]
  norm_num

example :
    (handle_request { (TokenTracker.init 100 (.vrat (1/2)) (.vrat (4/5))) with
        latest_input_tokens := 85 }).user_message_level = some ("error") := by
  simp [handle_request, ltVal, PyVal.toRat?, TokenTracker.init, TokenTracker.usage_pct]
  norm_num

end GuardianChecks

section StoreChecks

open Store

example : missingFields sampleInput = [] := by decide

example :
    missingFields { sampleInput with remaining := none } = ["remaining"] := by decide

example : fnameOf 1760000000 = "2025-10-09T08-53-20.json" := by decide

example :
    (save_state sampleInput 1760000000 none { dirExists := false, files := [] }).1
      = okOut ("State saved to .session-state/2025-10-09T08-53-20.json") := by
  decide

set_option maxRecDepth 4000 in
example :
    load_state (save_state sampleInput 1760000000 none
        { dirExists := false, files := [] }).2
      = okOut (renderDoc (docOf sampleInput 1760000000 none)) := by
  decide

end StoreChecks

/-- Applying `findSome?` to an append looks in the first list first. -/
theorem findSome?_append_eq {α β : Type} (f : α → Option β) (l₁ l₂ : List α) :
    (l₁ ++ l₂).findSome? f
      = (match l₁.findSome? f with
         | some b => some b
         | none => l₂.findSome? f) := by
  induction l₁ with
  | nil => simp
  | cons a l ih =>
    rw [List.cons_append, List.findSome?_cons, List.findSome?_cons]
    cases f a <;> simp [ih]

namespace Store

theorem hasJsonSuffix_append (s : String) : hasJsonSuffix (s ++ ".json") = true := by
  unfold hasJsonSuffix
  rw [String.data_append]
  exact (List.isSuffixOf_iff_suffix (α := Char)).mpr (List.suffix_append _ _)

theorem hasJsonSuffix_fnameOf (t : Int) : hasJsonSuffix (fnameOf t) = true :=
  hasJsonSuffix_append (stampStr t)

/-- The freshly written snapshot file is never pruned by the save that
wrote it. -/
theorem pruneFile_mkEntry (inp : SaveInput) (now : Int) (sid : Option String) :
    pruneFile (now - pruneSeconds) (mkEntry inp now sid) = false := by
  unfold pruneFile mkEntry pruneSeconds
  simp only [Bool.and_eq_false_imp]
  intro _
  simp only [decide_eq_false_iff_not]
  omega

end Store

section Claims

open Guardian Store

/-- C1: on every request event exactly one of three bands is selected from
`usage_pct`, evaluated in ascending order with first match winning:
`usage_pct < soft_threshold` yields an ephemeral system-role injection with
only the percentage and turn count and no user-facing message;
`soft_threshold ≤ usage_pct < hard_threshold` yields the injection plus a
warning-level user message; `usage_pct ≥ hard_threshold` yields the
injection plus an error-level user message; the boundary values select the
upper band. -/
theorem C1_request_band_selection (t : TokenTracker) (s h : Rat)
    (hs : t.soft_threshold = PyVal.vrat s) (hh : t.hard_threshold = PyVal.vrat h)
    (hsh : s < h) :
    (t.usage_pct < s →
      handle_request t =
        { action := "inject_context"
          context_injection := some (infoMsg (pytrunc (t.usage_pct * 100)) t.turn_count)
          context_injection_role := some ("system")
          ephemeral := true
          user_message := none
          user_message_level := none })
    ∧ (s ≤ t.usage_pct → t.usage_pct < h →
      handle_request t =
        { action := "inject_context"
          context_injection := some (softMsg (pytrunc (t.usage_pct * 100)))
          context_injection_role := some ("system")
          ephemeral := true
          user_message := some (softUserMsg (pytrunc (t.usage_pct * 100)))
          user_message_level := some ("warning") })
    ∧ (h ≤ t.usage_pct →
      handle_request t =
        { action := "inject_context"
          context_injection := some (hardMsg (pytrunc (t.usage_pct * 100)))
          context_injection_role := some ("system")
          ephemeral := true
          user_message := some (hardUserMsg (pytrunc (t.usage_pct * 100)))
          user_message_level := some ("error") }) := by
  refine ⟨fun hlt => ?_, fun hge hlt => ?_, fun hge => ?_⟩
  · unfold handle_request
    rw [hs]
    simp [ltVal, PyVal.toRat?, hlt]
  · unfold handle_request
    rw [hs, hh]
    simp [ltVal, PyVal.toRat?, hlt, not_lt.mpr hge]
  · have hge' : s ≤ t.usage_pct := le_trans (le_of_lt hsh) hge
    unfold handle_request
    rw [hs, hh]
    simp [ltVal, PyVal.toRat?, not_lt.mpr hge, not_lt.mpr hge']

/-- Witness for C1 at the spec's own example: `context_window = 100`,
`soft = 0.5`, `hard = 0.8`, latest input 60 tokens, one turn: the soft band
fires with a warning-level user message. -/
theorem C1_request_band_selection_witness :
    ((⟨100, .vrat (1/2), .vrat (4/5), 60, 0, 1⟩ : TokenTracker).soft_threshold
        = PyVal.vrat (1/2))
    ∧ ((⟨100, .vrat (1/2), .vrat (4/5), 60, 0, 1⟩ : TokenTracker).hard_threshold
        = PyVal.vrat (4/5))
    ∧ ((1/2 : Rat) < 4/5)
    ∧ ((1/2 : Rat) ≤ (⟨100, .vrat (1/2), .vrat (4/5), 60, 0, 1⟩ : TokenTracker).usage_pct)
    ∧ ((⟨100, .vrat (1/2), .vrat (4/5), 60, 0, 1⟩ : TokenTracker).usage_pct < (4/5 : Rat))
    ∧ handle_request (⟨100, .vrat (1/2), .vrat (4/5), 60, 0, 1⟩ : TokenTracker) =
        { action := "inject_context"
          context_injection := some (softMsg (pytrunc
            ((⟨100, .vrat (1/2), .vrat (4/5), 60, 0, 1⟩ : TokenTracker).usage_pct * 100)))
          context_injection_role := some ("system")
          ephemeral := true
          user_message := some (softUserMsg (pytrunc
            ((⟨100, .vrat (1/2), .vrat (4/5), 60, 0, 1⟩ : TokenTracker).usage_pct * 100)))
          user_message_level := some ("warning") } := by
  have h1 : ((1/2 : Rat) ≤ (⟨100, .vrat (1/2), .vrat (4/5), 60, 0, 1⟩ : TokenTracker).usage_pct) := by
    norm_num [TokenTracker.usage_pct]
  have h2 : ((⟨100, .vrat (1/2), .vrat (4/5), 60, 0, 1⟩ : TokenTracker).usage_pct < (4/5 : Rat)) := by
    norm_num [TokenTracker.usage_pct]
  exact ⟨rfl, rfl, by norm_num, h1, h2,
    (C1_request_band_selection _ (1/2) (4/5) rfl rfl (by norm_num)).2.1 h1 h2⟩

/-- C2: after any sequence of response events, `latest_input_tokens` is the
input count of the most recent event whose extracted input was strictly
positive (zero, absent or non-positive inputs leave it unchanged); the
inputs [1000, 0, 3000] end with 3000, not 4000. -/
theorem C2_latest_input_most_recent_positive (t : TokenTracker) (us : List Usage) :
    ((runResponses t us).latest_input_tokens
      = (us.reverse.findSome? posInput?).getD t.latest_input_tokens)
    ∧ ((runResponses (TokenTracker.init 200000 (.vrat (3/5)) (.vrat (4/5)))
        [inputUsage 1000, inputUsage 0, inputUsage 3000]).latest_input_tokens = 3000) := by
  constructor
  · induction us generalizing t with
    | nil => simp [runResponses]
    | cons u rest ih =>
      have hstep : runResponses t (u :: rest) = runResponses (handle_response t u).1 rest := by
        simp [runResponses]
      rw [hstep, ih, List.reverse_cons, findSome?_append_eq]
      rcases hF : rest.reverse.findSome? posInput? with _ | v
      · rw [handle_response_latest, List.findSome?_cons]
        rcases hU : posInput? u with _ | w <;> simp
      · simp
  · simp [runResponses,
      handle_response_int_pos _ (inputUsage 1000) 1000 0 (extract_inputUsage 1000) (by norm_num),
      handle_response_int_nonpos _ (inputUsage 0) 0 0 (extract_inputUsage 0) (by norm_num),
      handle_response_int_pos _ (inputUsage 3000) 3000 0 (extract_inputUsage 3000) (by norm_num)]

/-- C7: neither guardian handler ever propagates an exception to the host:
`on_response` returns the `continue` result on every input, and a failure
in `on_request`'s band computation (a raised threshold comparison) yields
the plain `continue` (no injection) result; in every case `on_request`
returns either `continue` or an injection result, never an error. -/
theorem C7_handlers_never_raise :
    (∀ (t : TokenTracker) (u : Usage), (handle_response t u).2 = continueResult)
    ∧ (∀ t : TokenTracker,
        (ltVal t.usage_pct t.soft_threshold = Except.error ()
          ∨ (ltVal t.usage_pct t.soft_threshold = Except.ok false
             ∧ ltVal t.usage_pct t.hard_threshold = Except.error ()))
        → handle_request t = continueResult)
    ∧ (∀ t : TokenTracker,
        handle_request t = continueResult
        ∨ (handle_request t).action = "inject_context") := by
  refine ⟨handle_response_continue, fun t hr => ?_, fun t => ?_⟩
  · rcases hr with he | ⟨hf, he⟩
    · simp [handle_request, he]
    · simp [handle_request, hf, he]
  · rcases h1 : ltVal t.usage_pct t.soft_threshold with e | b
    · left; simp [handle_request, h1]
    · cases b with
      | true => right; simp [handle_request, h1]
      | false =>
        rcases h2 : ltVal t.usage_pct t.hard_threshold with e | b2
        · left; simp [handle_request, h1, h2]
        · cases b2 with
          | false => right; simp [handle_request, h1, h2]
          | true => right; simp [handle_request, h1, h2]

/-- Witness for C7: a tracker whose `soft_threshold` config value is a
string makes the first band comparison raise, and the handler returns the
`continue` result. -/
theorem C7_handlers_never_raise_witness :
    (ltVal (⟨200000, .vstr ("high"), .vrat (4/5), 0, 0, 0⟩ : TokenTracker).usage_pct
        (⟨200000, .vstr ("high"), .vrat (4/5), 0, 0, 0⟩ : TokenTracker).soft_threshold
        = Except.error ()
      ∨ (ltVal (⟨200000, .vstr ("high"), .vrat (4/5), 0, 0, 0⟩ : TokenTracker).usage_pct
          (⟨200000, .vstr ("high"), .vrat (4/5), 0, 0, 0⟩ : TokenTracker).soft_threshold
          = Except.ok false
        ∧ ltVal (⟨200000, .vstr ("high"), .vrat (4/5), 0, 0, 0⟩ : TokenTracker).usage_pct
            (⟨200000, .vstr ("high"), .vrat (4/5), 0, 0, 0⟩ : TokenTracker).hard_threshold
          = Except.error ()))
    ∧ handle_request (⟨200000, .vstr ("high"), .vrat (4/5), 0, 0, 0⟩ : TokenTracker)
        = continueResult :=
  ⟨Or.inl rfl, C7_handlers_never_raise.2.1 _ (Or.inl rfl)⟩

/-- Every event whose two extracted fields are ints has an explicit int
pair. -/
theorem intExtract_spec (u : Usage) (h : intExtract u = true) :
    ∃ a b, extract_tokens u = (.vint a, .vint b) := by
  unfold intExtract at h
  rcases hE : extract_tokens u with ⟨iv, ov⟩
  rw [hE] at h
  cases iv <;> cases ov <;> simp_all

/-- The extracted output value of an int-pair event. -/
theorem outVal_of_extract (u : Usage) (a b : Int)
    (hE : extract_tokens u = (.vint a, .vint b)) : outVal u = (b : Rat) := by
  rw [outVal, hE]
  rfl

/-- C8: after any sequence of response events (whose extracted token fields
are ints), `cumulative_output_tokens` has grown by the sum of all extracted
output counts and `turn_count` by the number of events; outputs [50, 75, 0]
yield cumulative 125 and turn count 3. -/
theorem C8_cumulative_sum_and_turn_count (t : TokenTracker) (us : List Usage)
    (hint : ∀ u ∈ us, intExtract u = true) :
    ((runResponses t us).cumulative_output_tokens
      = t.cumulative_output_tokens + (us.map outVal).sum)
    ∧ ((runResponses t us).turn_count = t.turn_count + us.length)
    ∧ ((runResponses (TokenTracker.init 200000 (.vrat (3/5)) (.vrat (4/5)))
        [outputUsage 50, outputUsage 75, outputUsage 0]).cumulative_output_tokens = 125)
    ∧ ((runResponses (TokenTracker.init 200000 (.vrat (3/5)) (.vrat (4/5)))
        [outputUsage 50, outputUsage 75, outputUsage 0]).turn_count = 3) := by
  have main : ∀ (vs : List Usage) (s : TokenTracker), (∀ u ∈ vs, intExtract u = true) →
      (runResponses s vs).cumulative_output_tokens
        = s.cumulative_output_tokens + (vs.map outVal).sum
      ∧ (runResponses s vs).turn_count = s.turn_count + vs.length := by
    intro vs
    induction vs with
    | nil => intro s _; simp [runResponses]
    | cons u rest ih =>
      intro s hall
      obtain ⟨a, b, hE⟩ := intExtract_spec u (hall u (List.mem_cons_self u rest))
      have hrest : ∀ v ∈ rest, intExtract v = true :=
        fun v hv => hall v (List.mem_cons_of_mem u hv)
      have hstep : runResponses s (u :: rest) = runResponses (handle_response s u).1 rest := by
        simp [runResponses]
      have hfields :
          (handle_response s u).1.cumulative_output_tokens
              = s.cumulative_output_tokens + (b : Rat)
            ∧ (handle_response s u).1.turn_count = s.turn_count + 1 := by
        by_cases ha : 0 < a
        · rw [handle_response_int_pos s u a b hE ha]
          exact ⟨rfl, rfl⟩
        · rw [handle_response_int_nonpos s u a b hE ha]
          exact ⟨rfl, rfl⟩
      obtain ⟨ih1, ih2⟩ := ih (handle_response s u).1 hrest
      constructor
      · rw [hstep, ih1, hfields.1, List.map_cons, List.sum_cons,
          outVal_of_extract u a b hE, add_assoc]
      · rw [hstep, ih2, hfields.2, List.length_cons]
        omega
  refine ⟨(main us t hint).1, (main us t hint).2, ?_, ?_⟩
  · have h := (main [outputUsage 50, outputUsage 75, outputUsage 0]
      (TokenTracker.init 200000 (.vrat (3/5)) (.vrat (4/5))) (by decide)).1
    rw [h]
    norm_num [TokenTracker.init, outVal_of_extract _ 0 50 (extract_outputUsage 50),
      outVal_of_extract _ 0 75 (extract_outputUsage 75),
      outVal_of_extract _ 0 0 (extract_outputUsage 0)]
  · have h := (main [outputUsage 50, outputUsage 75, outputUsage 0]
      (TokenTracker.init 200000 (.vrat (3/5)) (.vrat (4/5))) (by decide)).2
    rw [h]
    rfl

/-- Witness for C8 at the spec's example: three responses with outputs 50,
75 and 0. -/
theorem C8_cumulative_sum_and_turn_count_witness :
    (∀ u ∈ [outputUsage 50, outputUsage 75, outputUsage 0], intExtract u = true)
    ∧ ((runResponses (TokenTracker.init 200000 (.vrat (3/5)) (.vrat (4/5)))
        [outputUsage 50, outputUsage 75, outputUsage 0]).cumulative_output_tokens
      = (TokenTracker.init 200000 (.vrat (3/5)) (.vrat (4/5))).cumulative_output_tokens
        + (([outputUsage 50, outputUsage 75, outputUsage 0]).map outVal).sum)
    ∧ ((runResponses (TokenTracker.init 200000 (.vrat (3/5)) (.vrat (4/5)))
        [outputUsage 50, outputUsage 75, outputUsage 0]).turn_count
      = (TokenTracker.init 200000 (.vrat (3/5)) (.vrat (4/5))).turn_count
        + ([outputUsage 50, outputUsage 75, outputUsage 0] : List Usage).length)
    ∧ ((runResponses (TokenTracker.init 200000 (.vrat (3/5)) (.vrat (4/5)))
        [outputUsage 50, outputUsage 75, outputUsage 0]).cumulative_output_tokens = 125)
    ∧ ((runResponses (TokenTracker.init 200000 (.vrat (3/5)) (.vrat (4/5)))
        [outputUsage 50, outputUsage 75, outputUsage 0]).turn_count = 3) :=
  ⟨by decide,
   (C8_cumulative_sum_and_turn_count (TokenTracker.init 200000 (.vrat (3/5)) (.vrat (4/5)))
     [outputUsage 50, outputUsage 75, outputUsage 0] (by decide)).1,
   (C8_cumulative_sum_and_turn_count (TokenTracker.init 200000 (.vrat (3/5)) (.vrat (4/5)))
     [outputUsage 50, outputUsage 75, outputUsage 0] (by decide)).2.1,
   (C8_cumulative_sum_and_turn_count (TokenTracker.init 200000 (.vrat (3/5)) (.vrat (4/5)))
     [outputUsage 50, outputUsage 75, outputUsage 0] (by decide)).2.2.1,
   (C8_cumulative_sum_and_turn_count (TokenTracker.init 200000 (.vrat (3/5)) (.vrat (4/5)))
     [outputUsage 50, outputUsage 75, outputUsage 0] (by decide)).2.2.2⟩

/-- Counterexample to C9 as stated: a response event whose usage payload
reports `output_tokens = -5` strictly decreases `cumulative_output_tokens`,
so the counter is not non-decreasing under usage payloads of arbitrary
shape. -/
theorem C9_counterexample :
    (handle_response (TokenTracker.init 200000 (.vrat (3/5)) (.vrat (4/5)))
        (outputUsage (-5))).1.cumulative_output_tokens
      < (TokenTracker.init 200000 (.vrat (3/5)) (.vrat (4/5))).cumulative_output_tokens := by
  rw [handle_response_int_nonpos _ _ 0 (-5) (extract_outputUsage (-5)) (by norm_num)]
  norm_num [TokenTracker.init]

/-- C9 (amended): `cumulative_output_tokens` is non-decreasing across every
response event whose extracted output-token value is not a negative number
(in particular for every well-formed usage payload, and for every event
whose processing raises and is caught). -/
theorem C9_cumulative_monotone_amended (t : TokenTracker) (u : Usage)
    (h : 0 ≤ outVal u) :
    t.cumulative_output_tokens ≤ (handle_response t u).1.cumulative_output_tokens := by
  rcases handle_response_cumulative t u with heq | ⟨heq, _⟩
  · rw [heq]
  · rw [heq]
    exact le_add_of_nonneg_right h

/-- Witness for the amended C9: an ordinary response with 7 output
tokens. -/
theorem C9_cumulative_monotone_amended_witness :
    (0 ≤ outVal (outputUsage 7))
    ∧ (TokenTracker.init 200000 (.vrat (3/5)) (.vrat (4/5))).cumulative_output_tokens
        ≤ (handle_response (TokenTracker.init 200000 (.vrat (3/5)) (.vrat (4/5)))
            (outputUsage 7)).1.cumulative_output_tokens := by
  have h : 0 ≤ outVal (outputUsage 7) := by
    rw [outVal_of_extract _ 0 7 (extract_outputUsage 7)]
    norm_num
  exact ⟨h, C9_cumulative_monotone_amended _ _ h⟩

/-- The field `latest_input_tokens` stays non-negative across any run of response
events. -/
theorem runResponses_latest_nonneg (t : TokenTracker) (us : List Usage)
    (h : 0 ≤ t.latest_input_tokens) :
    0 ≤ (runResponses t us).latest_input_tokens := by
  induction us generalizing t with
  | nil => exact h
  | cons u rest ih =>
    have hstep : runResponses t (u :: rest) = runResponses (handle_response t u).1 rest := by
      simp [runResponses]
    rw [hstep]
    refine ih _ ?_
    rw [handle_response_latest]
    rcases hP : posInput? u with _ | v
    · exact h
    · exact le_of_lt (posInput?_pos u v hP)

/-- Non-negative latest input gives a non-negative usage percentage. -/
theorem usage_pct_nonneg (t : TokenTracker) (h : 0 ≤ t.latest_input_tokens) :
    0 ≤ t.usage_pct := by
  unfold TokenTracker.usage_pct
  split
  · exact le_refl 0
  · next hw =>
    refine div_nonneg h ?_
    have : (0 : Int) ≤ t.context_window := by omega
    exact_mod_cast this

/-- C10: starting from a fresh tracker, `latest_input_tokens` is
non-negative after every sequence of response events (a negative reported
input never overwrites it), hence `usage_pct` is never negative and
`int(usage_pct * 100)` coincides with `floor(usage_pct * 100)`. -/
theorem C10_latest_nonneg_trunc_is_floor (window : Int) (soft hard : PyVal)
    (us : List Usage) :
    (0 ≤ (trackerAfter window soft hard us).latest_input_tokens)
    ∧ (0 ≤ (trackerAfter window soft hard us).usage_pct)
    ∧ (pytrunc ((trackerAfter window soft hard us).usage_pct * 100)
        = ((trackerAfter window soft hard us).usage_pct * 100).floor)
    ∧ (∀ n : Int, n < 0 →
        (handle_response (trackerAfter window soft hard us)
            (inputUsage n)).1.latest_input_tokens
          = (trackerAfter window soft hard us).latest_input_tokens) := by
  have h1 : 0 ≤ (trackerAfter window soft hard us).latest_input_tokens :=
    runResponses_latest_nonneg _ _ (le_refl 0)
  have h2 : 0 ≤ (trackerAfter window soft hard us).usage_pct :=
    usage_pct_nonneg _ h1
  refine ⟨h1, h2, ?_, ?_⟩
  · unfold pytrunc
    rw [if_pos (mul_nonneg h2 (by norm_num))]
  · intro n hn
    rw [handle_response_latest]
    have : posInput? (inputUsage n) = none := by
      unfold posInput?
      rw [extract_inputUsage, gtZero_vint]
      have : decide (0 < n) = false := by
        simp only [decide_eq_false_iff_not]
        omega
      rw [this]
    rw [this]
    rfl

/-- Witness for C10: one response of 1000 input tokens, then a response
reporting -3 input tokens leaves `latest_input_tokens` unchanged. -/
theorem C10_latest_nonneg_trunc_is_floor_witness :
    (0 ≤ (trackerAfter 200000 (.vrat (3/5)) (.vrat (4/5))
        [inputUsage 1000]).latest_input_tokens)
    ∧ (0 ≤ (trackerAfter 200000 (.vrat (3/5)) (.vrat (4/5)) [inputUsage 1000]).usage_pct)
    ∧ (pytrunc ((trackerAfter 200000 (.vrat (3/5)) (.vrat (4/5))
          [inputUsage 1000]).usage_pct * 100)
        = ((trackerAfter 200000 (.vrat (3/5)) (.vrat (4/5))
            [inputUsage 1000]).usage_pct * 100).floor)
    ∧ ((-3 : Int) < 0)
    ∧ ((handle_response (trackerAfter 200000 (.vrat (3/5)) (.vrat (4/5)) [inputUsage 1000])
          (inputUsage (-3))).1.latest_input_tokens
        = (trackerAfter 200000 (.vrat (3/5)) (.vrat (4/5))
            [inputUsage 1000]).latest_input_tokens) :=
  ⟨(C10_latest_nonneg_trunc_is_floor 200000 (.vrat (3/5)) (.vrat (4/5)) [inputUsage 1000]).1,
   (C10_latest_nonneg_trunc_is_floor 200000 (.vrat (3/5)) (.vrat (4/5)) [inputUsage 1000]).2.1,
   (C10_latest_nonneg_trunc_is_floor 200000 (.vrat (3/5)) (.vrat (4/5)) [inputUsage 1000]).2.2.1,
   by norm_num,
   (C10_latest_nonneg_trunc_is_floor 200000 (.vrat (3/5)) (.vrat (4/5))
     [inputUsage 1000]).2.2.2 (-3) (by norm_num)⟩

/-- C3: `save_state` with a missing or empty `summary`, `accomplished` or
`remaining` field returns a validation error naming exactly the missing
fields (joined in order), and leaves the state directory and every existing
snapshot untouched. -/
theorem C3_save_validation_error (inp : SaveInput) (now : Int) (sid : Option String)
    (fs : FS) (h : missingFields inp ≠ []) :
    save_state inp now sid fs
      = (errOut ("save_state requires: "
          ++ String.intercalate (", ") (missingFields inp)), fs) := by
  simp [save_state, h]

/-- Witness for C3: a save carrying only `summary` fails naming
`accomplished` and `remaining`, and the store is untouched. -/
theorem C3_save_validation_error_witness :
    (missingFields ⟨some ("did things"), none, none, none, none⟩ ≠ [])
    ∧ save_state ⟨some ("did things"), none, none, none, none⟩ 1760000000 none ⟨false, []⟩
        = (errOut ("save_state requires: "
            ++ String.intercalate (", ")
                (missingFields ⟨some ("did things"), none, none, none, none⟩)),
           (⟨false, []⟩ : FS)) :=
  ⟨by decide, C3_save_validation_error _ _ _ _ (by decide)⟩

/-- C4: from an empty store, a valid save writes exactly one snapshot file,
an immediate `load_state` returns the just-saved document verbatim, and
`list_states` reports exactly that one entry. -/
theorem C4_save_load_roundtrip (inp : SaveInput) (now : Int) (sid : Option String)
    (h : missingFields inp = []) :
    ((save_state inp now sid ⟨false, []⟩).2.files = [mkEntry inp now sid])
    ∧ (load_state (save_state inp now sid ⟨false, []⟩).2
        = okOut (renderDoc (docOf inp now sid)))
    ∧ (list_states (save_state inp now sid ⟨false, []⟩).2
        = okOut ("Found 1 state file(s):\n"
            ++ (fnameOf now ++ " ("
                ++ toString ((renderDoc (docOf inp now sid) ++ "\n").utf8ByteSize)
                ++ " bytes)"))) := by
  have hsave : (save_state inp now sid ⟨false, []⟩).2
      = ⟨true, [mkEntry inp now sid]⟩ := by
    simp [save_state, h, prune_old_states, pruneFile_mkEntry]
  have hglob : globJson ⟨true, [mkEntry inp now sid]⟩ = [mkEntry inp now sid] := by
    simp [globJson, mkEntry, hasJsonSuffix_fnameOf]
  have hlit : ("Found " ++ toString (1 : Nat) ++ " state file(s):\n" : String)
      = "Found 1 state file(s):\n" := by decide
  refine ⟨by rw [hsave], ?_, ?_⟩
  · rw [hsave]
    unfold load_state
    simp only [Bool.not_true, hglob]
    rfl
  · rw [hsave]
    unfold list_states
    simp only [Bool.not_true, hglob]
    exact congrArg (fun s => okOut (s
      ++ (fnameOf now ++ " ("
          ++ toString ((renderDoc (docOf inp now sid) ++ "\n").utf8ByteSize)
          ++ " bytes)"))) hlit

/-- Witness for C4: the sample input saved at a concrete instant. -/
theorem C4_save_load_roundtrip_witness :
    (missingFields sampleInput = [])
    ∧ ((save_state sampleInput 1760000000 none ⟨false, []⟩).2.files
        = [mkEntry sampleInput 1760000000 none])
    ∧ (load_state (save_state sampleInput 1760000000 none ⟨false, []⟩).2
        = okOut (renderDoc (docOf sampleInput 1760000000 none)))
    ∧ (list_states (save_state sampleInput 1760000000 none ⟨false, []⟩).2
        = okOut ("Found 1 state file(s):\n"
            ++ (fnameOf 1760000000 ++ " ("
                ++ toString ((renderDoc (docOf sampleInput 1760000000 none) ++ "\n").utf8ByteSize)
                ++ " bytes)"))) :=
  ⟨by decide,
   (C4_save_load_roundtrip sampleInput 1760000000 none (by decide)).1,
   (C4_save_load_roundtrip sampleInput 1760000000 none (by decide)).2.1,
   (C4_save_load_roundtrip sampleInput 1760000000 none (by decide)).2.2⟩

/-- C5: pruning runs as a side effect of every successful save and deletes
exactly the snapshot files whose modification time is older than now minus
7 days; the save result reports that count; a per-file deletion failure is
swallowed: the save still succeeds, the failing file survives, and the rest
of the pass is unaffected. -/
theorem C5_save_prunes_old_files (inp : SaveInput) (now : Int) (sid : Option String)
    (fs : FS) (hv : missingFields inp = [])
    (hJson : ∀ f ∈ fs.files, hasJsonSuffix f.name = true)
    (hName : ∀ f ∈ fs.files, f.name ≠ fnameOf now) :
    ((save_state inp now sid fs).1.error = none)
    ∧ ((save_state inp now sid fs).1
        = okOut (saveMsg now
            ((fs.files.filter
                (fun f => !f.opFails && decide (f.mtime < now - pruneSeconds))).length)))
    ∧ ((save_state inp now sid fs).2.files
        = mkEntry inp now sid
            :: fs.files.filter
                (fun f => !(!f.opFails && decide (f.mtime < now - pruneSeconds)))) := by
  have hpf : ∀ f ∈ fs.files,
      pruneFile (now - pruneSeconds) f
        = (!f.opFails && decide (f.mtime < now - pruneSeconds)) := by
    intro f hf
    unfold pruneFile
    rw [hJson f hf]
    simp
  have hw : fs.files.filter (fun f => f.name ≠ (mkEntry inp now sid).name) = fs.files :=
    List.filter_eq_self.mpr (fun f hf => decide_eq_true (hName f hf))
  have hkeep : fs.files.filter (fun f => !pruneFile (now - pruneSeconds) f)
      = fs.files.filter (fun f => !(!f.opFails && decide (f.mtime < now - pruneSeconds))) :=
    List.filter_congr (fun f hf => by rw [hpf f hf])
  have hdel : fs.files.filter (pruneFile (now - pruneSeconds))
      = fs.files.filter (fun f => !f.opFails && decide (f.mtime < now - pruneSeconds)) :=
    List.filter_congr hpf
  have hsave : save_state inp now sid fs
      = (okOut (saveMsg now
          ((fs.files.filter
            (fun f => !f.opFails && decide (f.mtime < now - pruneSeconds))).length)),
         ⟨true, mkEntry inp now sid
            :: fs.files.filter
                (fun f => !(!f.opFails && decide (f.mtime < now - pruneSeconds)))⟩) := by
    simp only [save_state, prune_old_states, hv, ne_eq, not_true_eq_false,
      Bool.false_eq_true, if_false, hw, List.filter_cons, pruneFile_mkEntry,
      Bool.not_false, if_true, hkeep, hdel]
  rw [hsave]
  exact ⟨rfl, rfl, rfl⟩

/-- Witness for C5: saving over a store holding one stale file (8 days
old), one fresh file, and one stale file whose deletion fails: exactly the
healthy stale file is pruned, the count is 1, and the save succeeds. -/
theorem C5_save_prunes_old_files_witness :
    (missingFields sampleInput = [])
    ∧ (∀ f ∈ [(⟨"2025-10-01T00-00-00.json", .malformed ("irrelevant"), 10,
                  1760000000 - 8 * 86400, false⟩ : FileEntry),
              ⟨"2025-10-09T00-00-00.json", .malformed ("irrelevant"), 10,
                  1760000000 - 3600, false⟩,
              ⟨"2025-09-30T00-00-00.json", .malformed ("irrelevant"), 10,
                  1760000000 - 9 * 86400, true⟩],
        hasJsonSuffix f.name = true)
    ∧ (∀ f ∈ [(⟨"2025-10-01T00-00-00.json", .malformed ("irrelevant"), 10,
                  1760000000 - 8 * 86400, false⟩ : FileEntry),
              ⟨"2025-10-09T00-00-00.json", .malformed ("irrelevant"), 10,
                  1760000000 - 3600, false⟩,
              ⟨"2025-09-30T00-00-00.json", .malformed ("irrelevant"), 10,
                  1760000000 - 9 * 86400, true⟩],
        f.name ≠ fnameOf 1760000000)
    ∧ ((save_state sampleInput 1760000000 none
          ⟨true, [⟨"2025-10-01T00-00-00.json", .malformed ("irrelevant"), 10,
                      1760000000 - 8 * 86400, false⟩,
                  ⟨"2025-10-09T00-00-00.json", .malformed ("irrelevant"), 10,
                      1760000000 - 3600, false⟩,
                  ⟨"2025-09-30T00-00-00.json", .malformed ("irrelevant"), 10,
                      1760000000 - 9 * 86400, true⟩]⟩).1
        = okOut (saveMsg 1760000000 1))
    ∧ ((save_state sampleInput 1760000000 none
          ⟨true, [⟨"2025-10-01T00-00-00.json", .malformed ("irrelevant"), 10,
                      1760000000 - 8 * 86400, false⟩,
                  ⟨"2025-10-09T00-00-00.json", .malformed ("irrelevant"), 10,
                      1760000000 - 3600, false⟩,
                  ⟨"2025-09-30T00-00-00.json", .malformed ("irrelevant"), 10,
                      1760000000 - 9 * 86400, true⟩]⟩).2.files
        = mkEntry sampleInput 1760000000 none
            :: [⟨"2025-10-09T00-00-00.json", .malformed ("irrelevant"), 10,
                    1760000000 - 3600, false⟩,
                ⟨"2025-09-30T00-00-00.json", .malformed ("irrelevant"), 10,
                    1760000000 - 9 * 86400, true⟩]) := by
  refine ⟨by decide, by decide, by decide, ?_, ?_⟩
  · have h := (C5_save_prunes_old_files sampleInput 1760000000 none
      ⟨true, [⟨"2025-10-01T00-00-00.json", .malformed ("irrelevant"), 10,
                  1760000000 - 8 * 86400, false⟩,
              ⟨"2025-10-09T00-00-00.json", .malformed ("irrelevant"), 10,
                  1760000000 - 3600, false⟩,
              ⟨"2025-09-30T00-00-00.json", .malformed ("irrelevant"), 10,
                  1760000000 - 9 * 86400, true⟩]⟩
      (by decide) (by decide) (by decide)).2.1
    rw [h]
    rfl
  · have h := (C5_save_prunes_old_files sampleInput 1760000000 none
      ⟨true, [⟨"2025-10-01T00-00-00.json", .malformed ("irrelevant"), 10,
                  1760000000 - 8 * 86400, false⟩,
              ⟨"2025-10-09T00-00-00.json", .malformed ("irrelevant"), 10,
                  1760000000 - 3600, false⟩,
              ⟨"2025-09-30T00-00-00.json", .malformed ("irrelevant"), 10,
                  1760000000 - 9 * 86400, true⟩]⟩
      (by decide) (by decide) (by decide)).2.2
    rw [h]
    rfl

/-- C6: `load_state` on a missing state directory, and on a directory with
no snapshot files, each return a fresh-session informational output (never
an error), and the two messages are distinct. -/
theorem C6_load_fresh_session (fs : FS) :
    (fs.dirExists = false →
      load_state fs
        = okOut ("No session state directory found. This appears to be a fresh session."))
    ∧ (fs.dirExists = true → globJson fs = [] →
      load_state fs
        = okOut ("No state files found. This appears to be a fresh session."))
    ∧ (∀ s, (okOut s).error = none ∧ (okOut s).output = some s)
    ∧ ("No session state directory found. This appears to be a fresh session."
        ≠ "No state files found. This appears to be a fresh session.") := by
  refine ⟨fun hd => ?_, fun hd hg => ?_, fun s => ⟨rfl, rfl⟩, by decide⟩
  · unfold load_state
    rw [hd]
    rfl
  · unfold load_state
    rw [hd, hg]
    rfl

/-- Witness for C6: a store with no directory, and a directory holding only
a non-snapshot file. -/
theorem C6_load_fresh_session_witness :
    ((⟨false, []⟩ : FS).dirExists = false
      ∧ load_state ⟨false, []⟩
          = okOut ("No session state directory found. This appears to be a fresh session."))
    ∧ ((⟨true, [⟨"notes.txt", .malformed ("not json"), 8, 0, false⟩]⟩ : FS).dirExists = true
      ∧ globJson ⟨true, [⟨"notes.txt", .malformed ("not json"), 8, 0, false⟩]⟩ = []
      ∧ load_state ⟨true, [⟨"notes.txt", .malformed ("not json"), 8, 0, false⟩]⟩
          = okOut ("No state files found. This appears to be a fresh session.")) :=
  ⟨⟨rfl, (C6_load_fresh_session ⟨false, []⟩).1 rfl⟩,
   ⟨rfl, by decide,
    (C6_load_fresh_session ⟨true, [⟨"notes.txt", .malformed ("not json"), 8, 0, false⟩]⟩).2.1
      rfl (by decide)⟩⟩

end Claims
